import Mathlib

/-!
Shallow embedding of `NYSE_Auction_Scraper.py` (NYSE auction-data scraper).

The file embeds, faithfully to the Python/JS source:
  * the data model (`SeriesData`, `PhaseData`, `RawChartBundle`, `AuctionRecord`),
  * the record normalizer loop of `nyse_auction_scraper_example` (lines 121-137),
  * the in-page chart extraction script (lines 93-118),
  * `AdvancedWebScraper.navigate` (lines 51-60) and `_setup_webdriver` (lines 34-49),
  * the orchestrator loop with its single run-level `try/except/finally` (lines 85-152),
  * `get_weekdays` (lines 70-79) together with the `datetime` calendar semantics
    (proleptic Gregorian calendar, `MINYEAR = 1`, `MAXYEAR = 9999`, `strptime`
    field validation, weekday with Monday = 0, and the `OverflowError` raised when
    incrementing past `datetime.max`).

Numeric chart values are modelled as integers; no claim depends on the numeric
representation of a point's `y` value.
-/

/-- One chart point as produced by the in-page script: `{y: point.y, label: ...}`.
`label` is `none` when the point has no rendered data label (JS `null`). -/
structure PointValue where
  y : Int
  label : Option String
deriving DecidableEq

/-- `extractSeriesData` result: `{times: xAxis categories, values: points}`. -/
structure SeriesData where
  times : List String
  values : List PointValue
deriving DecidableEq

/-- One phase's slot dictionary: `rawData[type].imbalance / .paired / .price`.
A slot is `none` when `extractSeriesData` returned JS `null` for that chart. -/
structure PhaseData where
  imbalance : Option SeriesData
  paired : Option SeriesData
  price : Option SeriesData
deriving DecidableEq

/-- The bundle `{opening: ..., closing: ...}` returned by the in-page script.
A phase is `none` exactly when its dictionary stayed the empty (falsy) `{}`,
i.e. no heading of that class wrote its triplet of slots. -/
structure RawChartBundle where
  opening : Option PhaseData
  closing : Option PhaseData
deriving DecidableEq

/-- One flat output record appended to `all_data` (lines 129-137). -/
structure AuctionRecord where
  symbol : String
  date : String
  auction_type : String
  metric : String
  time : String
  value : Int
  label : Option String
deriving DecidableEq

/-- Line 127: `metric_name = 'paired_quantity' if metric == 'paired' else
'clearing_price' if metric == 'price' else metric`. -/
def metricName (metric : String) : String :=
  if metric = "paired" then "paired_quantity"
  else if metric = "price" then "clearing_price"
  else metric

/-- Line 124: `raw_data[auction_type].get(metric)` for the three slot names. -/
def getMetric (p : PhaseData) (metric : String) : Option SeriesData :=
  if metric = "imbalance" then p.imbalance
  else if metric = "paired" then p.paired
  else if metric = "price" then p.price
  else none

/-- Lines 128-137: `for t, v in zip(times, values): all_data.append({...})`. -/
def seriesRecords (symbol date atype metric : String) (s : SeriesData) :
    List AuctionRecord :=
  (s.times.zip s.values).map fun tv =>
    { symbol := symbol, date := date, auction_type := atype,
      metric := metricName metric, time := tv.1, value := tv.2.y,
      label := tv.2.label }

/-- Line 123: `for metric in ['imbalance', 'paired', 'price']`. -/
def metricsOrder : List String := ["imbalance", "paired", "price"]

/-- Lines 122-137: the body guarded by `if raw_data[auction_type]:` (a phase whose
dictionary stayed empty `{}` is falsy and contributes nothing), looping over the
three metrics and skipping absent (falsy) slots. -/
def phaseRecords (symbol date atype : String) (pd : Option PhaseData) :
    List AuctionRecord :=
  match pd with
  | none => []
  | some p =>
    metricsOrder.flatMap fun m =>
      match getMetric p m with
      | some s => seriesRecords symbol date atype m s
      | none => []

/-- One metric's contribution inside the loop of line 123 (`[]` when the slot is
absent, the zipped records otherwise); `phaseRecords` is the concatenation of
the three chunks in metric order. -/
def metricChunk (symbol date atype m : String) (p : PhaseData) :
    List AuctionRecord :=
  match getMetric p m with
  | some s => seriesRecords symbol date atype m s
  | none => []

/-- Lines 121-137: `for auction_type in ['opening', 'closing']: ...`, the whole
normalization of one request's bundle into flat records, in emission order. -/
def normalizeBundle (symbol date : String) (b : RawChartBundle) :
    List AuctionRecord :=
  phaseRecords symbol date "opening" b.opening ++
    phaseRecords symbol date "closing" b.closing

/-- Spec-side count: `len(times)` for a present series, `0` for an absent one. -/
def seriesCount : Option SeriesData → Nat
  | none => 0
  | some s => s.times.length

/-- Spec-side count of one phase: sum of `len(times)` over its present slots. -/
def phaseCount : Option PhaseData → Nat
  | none => 0
  | some p => seriesCount p.imbalance + seriesCount p.paired + seriesCount p.price

/-- Spec-side count of a bundle: sum of `len(times)` over all present
(phase, metric) combinations. -/
def bundleCount (b : RawChartBundle) : Nat :=
  phaseCount b.opening + phaseCount b.closing

/-- Alignment of one optional series: `times` and `values` have equal length. -/
def seriesOk : Option SeriesData → Bool
  | none => true
  | some s => s.times.length == s.values.length

/-- Alignment of one optional phase: all three slots aligned. -/
def phaseAligned : Option PhaseData → Bool
  | none => true
  | some p => seriesOk p.imbalance && seriesOk p.paired && seriesOk p.price

/-- The spec's alignment precondition on a bundle: every present series has
`times` and `values` of the same length. -/
def alignedBundle (b : RawChartBundle) : Bool :=
  phaseAligned b.opening && phaseAligned b.closing

/-! ## Chart extractor (in-page script, lines 93-118) -/

/-- One `h6.mb-4.pl-8.text-black` heading element; only its `textContent`
matters to the script. -/
structure Heading where
  textContent : String
deriving DecidableEq

/-- A rendered page as the script sees it: the heading elements in document
order, and `Highcharts.charts` in document order, each chart already reduced to
the result of `extractSeriesData` (`none` for a JS `null`, i.e. a chart that is
missing, or has no `series[0]`). An index beyond the list is an out-of-bounds
`Highcharts.charts[i]` (JS `undefined`), for which `extractSeriesData` also
yields `null`. -/
structure Page where
  headers : List Heading
  charts : List (Option SeriesData)
deriving DecidableEq

/-- JS `String.prototype.includes`: case-sensitive contiguous substring test. -/
def strIncludes (hay needle : String) : Bool :=
  (List.range (hay.toList.length + 1)).any fun i =>
    (hay.toList.drop i).take needle.toList.length == needle.toList

/-- Line 110: `var isOpening = header.textContent.includes('Opening')`. -/
def classifyOpening (h : Heading) : Bool :=
  strIncludes h.textContent "Opening"

/-- `extractSeriesData(Highcharts.charts[i])`: `null` both for an out-of-bounds
index and for a chart recorded as `none`. -/
def chartSlot (charts : List (Option SeriesData)) (i : Nat) : Option SeriesData :=
  charts.getD i none

/-- Lines 112-114: the three consecutive charts assigned positionally to
`imbalance`, `paired`, `price`. -/
def tripletAt (charts : List (Option SeriesData)) (i : Nat) : PhaseData :=
  { imbalance := chartSlot charts i
    paired := chartSlot charts (i + 1)
    price := chartSlot charts (i + 2) }

/-- Lines 109-116: `headers.forEach(...)` with the mutable `rawData` dicts and
the running `chartIndex`. `op`/`cl` hold the current `rawData.opening` /
`rawData.closing` (`none` = still the empty dict `\x7b\x7d`). -/
def extractLoop (charts : List (Option SeriesData)) :
    List Heading → Option PhaseData → Option PhaseData → Nat → RawChartBundle
  | [], op, cl, _ => { opening := op, closing := cl }
  | h :: rest, op, cl, idx =>
    if classifyOpening h then
      extractLoop charts rest (some (tripletAt charts idx)) cl (idx + 3)
    else
      extractLoop charts rest op (some (tripletAt charts idx)) (idx + 3)

/-- The whole in-page script, lines 106-117: starts from
`rawData = \x7b opening: \x7b\x7d, closing: \x7b\x7d \x7d` and `chartIndex = 0`. -/
def extractRaw (page : Page) : RawChartBundle :=
  extractLoop page.charts page.headers none none 0

/-- Modelled from the spec's words for the extractor's consumption discipline:
the position (0-based) of the last heading satisfying `p`, in document order. -/
def lastIdxWhere (p : Heading → Bool) : List Heading → Option Nat
  | [] => none
  | h :: rest =>
    match lastIdxWhere p rest with
    | some k => some (k + 1)
    | none => if p h then some 0 else none

/-- Modelled from the spec's words (claim C6): headings are consumed in document
order in fixed groups of three charts each, the heading at position `k` taking
charts `3k`, `3k+1`, `3k+2` as `imbalance`, `paired`, `price`; a phase holds the
triplet of the last heading classified into it, and stays absent when no heading
was classified into it. -/
def specExtract (page : Page) : RawChartBundle :=
  { opening := (lastIdxWhere classifyOpening page.headers).map fun k =>
      tripletAt page.charts (3 * k)
    closing := (lastIdxWhere (fun h => !classifyOpening h) page.headers).map fun k =>
      tripletAt page.charts (3 * k) }

/-! ## Navigator (`AdvancedWebScraper.navigate`, lines 51-60) -/

/-- The behaviour of the underlying driver for one `navigate` call: whether
`driver.get(url)` raises, whether `wait.until(wait_condition)` raises (page-load
errors, readiness timeout `TimeoutException`, driver exceptions, a raising
predicate), and whether `time.sleep(additional_wait)` raises (e.g. `ValueError`
on a negative settle delay). `none` = the step succeeds. The URL and the
concrete wait condition and settle delay are absorbed into this behaviour: the
driver's reaction to them is exactly what the fields record. -/
structure NavEnv where
  getErr : Option String
  waitErr : Option String
  sleepErr : Option String
deriving DecidableEq

/-- The `try` body of `navigate` (lines 53-57): each step may raise; `hasWait`
is whether a `wait_condition` was supplied (line 54). -/
def navigateBody (env : NavEnv) (hasWait : Bool) : Except String Bool :=
  match env.getErr with
  | some e => .error e
  | none =>
    match (if hasWait then env.waitErr else none) with
    | some e => .error e
    | none =>
      match env.sleepErr with
      | some e => .error e
      | none => .ok true

/-- Lines 51-60: `navigate` wraps the body in `try/except Exception`; an escaping
exception is logged (`self.logger.error(f"Navigation error: ...")`) and turned
into `False`. Result: (returned boolean, log lines emitted). Total by
construction: the model of "never raises". -/
def navigate (env : NavEnv) (hasWait : Bool) : Bool × List String :=
  match navigateBody env hasWait with
  | .ok b => (b, [])
  | .error e => (false, ["Navigation error: " ++ e])

/-! ## `_setup_webdriver` (lines 34-49) -/

/-- Outcome of `_setup_webdriver`: either the `ValueError` of line 36, raised
before `Service`/`webdriver.Chrome` are touched, or control reaching the driver
construction of lines 37-47. -/
inductive SetupResult where
  | valueError (msg : String)
  | driverReady
deriving DecidableEq

/-- Python `str.lower()` restricted to ASCII letters (the relevant domain here;
the source only compares against the ASCII string `"chrome"`). -/
def pyLowerChar (c : Char) : Char :=
  if 'A' ≤ c ∧ c ≤ 'Z' then Char.ofNat (c.toNat + 32) else c

/-- Python `str.lower()` on a whole string (ASCII model). -/
def pyLower (s : String) : String :=
  String.mk (s.toList.map pyLowerChar)

/-- Lines 34-47: `if browser.lower() != 'chrome': raise ValueError(...)`,
otherwise proceed to driver setup. -/
def setup_webdriver (browser : String) : SetupResult :=
  if pyLower browser ≠ "chrome" then
    .valueError "Currently only Chrome is supported"
  else
    .driverReady

/-! ## Run orchestrator (`nyse_auction_scraper_example`, lines 81-152) -/

/-- What one (ticker, date) iteration of the inner loop does, as decided by the
environment (site, driver): `navFail` = `scraper.navigate(...)` returned `False`
(line 92); `pageOk page` = navigation succeeded and the in-page script ran on
`page`; `raiseErr msg` = an exception escaped the extraction/normalization step
for this pair (e.g. `execute_script` driver error, `json.loads` failure, or a
missing key in the decoded structure). -/
inductive PairOutcome where
  | navFail
  | pageOk (page : Page)
  | raiseErr (msg : String)

/-- Records contributed by one successfully navigated pair: the in-page script
followed by the normalizer (lines 119-137). -/
def pairRecords (ticker date : String) (page : Page) : List AuctionRecord :=
  normalizeBundle ticker date (extractRaw page)

/-- Line 139's warning for a failed navigation. -/
def navWarn (ticker date : String) : String :=
  "Failed to navigate to URL for " ++ ticker ++ " on " ++ date

/-- Lines 86-139: the double loop over pairs, accumulating `all_data` and log
lines. An exception (`raiseErr`) aborts the iteration immediately, carrying the
records accumulated so far and the exception message (third component). -/
def runPairs (env : String → String → PairOutcome) :
    List (String × String) → List AuctionRecord → List String →
    List AuctionRecord × List String × Option String
  | [], acc, logs => (acc, logs, none)
  | (t, d) :: rest, acc, logs =>
    match env t d with
    | .navFail => runPairs env rest acc (logs ++ [navWarn t d])
    | .pageOk page => runPairs env rest (acc ++ pairRecords t d page) logs
    | .raiseErr m => (acc, logs, some m)

/-- Line 86-87: the cross product iterated by the two `for` loops — outer
tickers, inner dates. -/
def crossPairs (tickers dates : List String) : List (String × String) :=
  tickers.flatMap fun t => dates.map fun d => (t, d)

/-- Final state of one run of `nyse_auction_scraper_example`: the accumulator
`all_data` at the moment the function returns, what was handed to `to_csv`
(`none` if the export never completed), the log lines, whether
`scraper.close()` ran (the `finally` of line 151), and whether an exception
propagates out of the function. -/
structure RunResult where
  all_data : List AuctionRecord
  exported : Option (List AuctionRecord)
  logs : List String
  closed : Bool
  raised : Bool
deriving DecidableEq

/-- Lines 81-152 end to end: a single `try` wraps the whole double loop *and*
the export (lines 142-147); `except Exception` (lines 149-150) logs
`"Scraping failed: ..."` and swallows the exception; `finally` (lines 151-152)
closes the browser. `exportErr` is the behaviour of the external
`DataFrame`/`to_csv` step: `some msg` = it raises. -/
def nyse_auction_scraper_example (tickers dates : List String)
    (env : String → String → PairOutcome) (exportErr : Option String) :
    RunResult :=
  match runPairs env (crossPairs tickers dates) [] [] with
  | (acc, logs, some m) =>
    { all_data := acc, exported := none
      logs := logs ++ ["Scraping failed: " ++ m], closed := true, raised := false }
  | (acc, logs, none) =>
    match exportErr with
    | some m =>
      { all_data := acc, exported := none
        logs := logs ++ ["Scraping failed: " ++ m], closed := true, raised := false }
    | none =>
      { all_data := acc, exported := some acc
        logs := logs ++ ["Saved consolidated data"], closed := true, raised := false }

/-- Phase selection of a bundle by the loop variable of line 121. -/
def bundlePhase (b : RawChartBundle) (phase : String) : Option PhaseData :=
  if phase = "opening" then b.opening
  else if phase = "closing" then b.closing
  else none

/-- The (phase, metric) series of a bundle, absent when the phase dictionary is
empty or the slot is missing/null. -/
def bundleSeries (b : RawChartBundle) (phase metric : String) : Option SeriesData :=
  match bundlePhase b phase with
  | none => none
  | some p => getMetric p metric

/-- Selector of one (phase, external-metric-name) group among emitted records. -/
def groupPred (phase mname : String) (r : AuctionRecord) : Bool :=
  r.auction_type == phase && r.metric == mname

/-- Concrete two-point series of the spec's normalizer scenario (§8). -/
def sampleSeries : SeriesData :=
  { times := ["09:28:00", "09:29:00"]
    values := [{ y := 1000, label := some "1.0K" }, { y := 1200, label := none }] }

/-- A bundle with only `opening.imbalance` present. -/
def sampleBundle : RawChartBundle :=
  { opening := some { imbalance := some sampleSeries, paired := none, price := none }
    closing := none }

/-- A series whose `times` is longer than its `values` (misaligned). -/
def raggedSeries : SeriesData :=
  { times := ["09:28:00", "09:29:00", "09:30:00"]
    values := [{ y := 7, label := none }] }

/-- A bundle holding only the misaligned series, at `closing.paired`. -/
def raggedBundle : RawChartBundle :=
  { opening := none
    closing := some { imbalance := none, paired := some raggedSeries, price := none } }

/-- A page with one opening heading and one chart (the other two slots of its
triplet are beyond the chart list). -/
def samplePage : Page :=
  { headers := [{ textContent := "Opening Auction Imbalance" }]
    charts := [some sampleSeries] }

/-- The first record the normalizer emits for `sampleBundle`. -/
def sampleRecord : AuctionRecord :=
  { symbol := "A", date := "12-02-2024", auction_type := "opening",
    metric := "imbalance", time := "09:28:00", value := 1000,
    label := some "1.0K" }

/-- Environment in which every navigation fails. -/
def envNavFail : String → String → PairOutcome := fun _ _ => .navFail

/-- Environment in which every navigation succeeds and yields `samplePage`. -/
def envPageOk : String → String → PairOutcome := fun _ _ => .pageOk samplePage

/-- Environment for exercising the run-level exception handling: the pair with
date `"12-02-2024"` raises during extraction; every other pair navigates
successfully and yields `samplePage`. -/
def cexEnv : String → String → PairOutcome := fun _ d =>
  if d = "12-02-2024" then .raiseErr "boom"
  else if d = "12-05-2024" then .navFail
  else .pageOk samplePage

/-! ## Date range expander (`get_weekdays`, lines 70-79) and the `datetime`
calendar model

`datetime.strptime(s, "%m-%d-%Y")` / `current += timedelta(days=1)` /
`current <= end` / `current.weekday()` / `current.strftime("%m-%d-%Y")` are
modelled over a proleptic-Gregorian `Date` record. `datetime` comparison and
day-arithmetic are chronological, captured by the rata-die number `toRataDie`
(day 1 = 0001-01-01, a Monday). `datetime.MINYEAR = 1`,
`datetime.MAXYEAR = 9999`; advancing past 9999-12-31 raises `OverflowError`. -/

/-- A calendar date as carried by the `datetime` objects in `get_weekdays`. -/
structure Date where
  month : Nat
  day : Nat
  year : Nat
deriving DecidableEq

/-- Gregorian leap-year rule, as implemented by `datetime`. -/
def isLeapYear (y : Nat) : Bool :=
  y % 4 == 0 && (y % 100 != 0 || y % 400 == 0)

/-- Days in month `m` of year `y`. -/
def daysInMonth (y m : Nat) : Nat :=
  if m = 2 then (if isLeapYear y then 29 else 28)
  else if m = 4 ∨ m = 6 ∨ m = 9 ∨ m = 11 then 30
  else 31

/-- Days before month `m` in a common year. -/
def monthOffset (m : Nat) : Nat :=
  if m ≤ 1 then 0 else if m = 2 then 31 else if m = 3 then 59
  else if m = 4 then 90 else if m = 5 then 120 else if m = 6 then 151
  else if m = 7 then 181 else if m = 8 then 212 else if m = 9 then 243
  else if m = 10 then 273 else if m = 11 then 304 else 334

/-- Days of year `y` strictly before month `m`. -/
def daysBeforeMonth (y m : Nat) : Nat :=
  monthOffset m + (if 3 ≤ m ∧ isLeapYear y = true then 1 else 0)

/-- Number of leap years in `1..y`. (`y / 4 + y / 400 ≥ y / 100`, so the
truncated subtraction is exact.) -/
def leapCount (y : Nat) : Nat := y / 4 + y / 400 - y / 100

/-- Rata-die day number: 0001-01-01 is day 1. Chronological order and
day-arithmetic of `datetime` coincide with this numbering. -/
def toRataDie (d : Date) : Nat :=
  365 * (d.year - 1) + leapCount (d.year - 1) +
    daysBeforeMonth d.year d.month + d.day

/-- `datetime.weekday()`: Monday = 0 ... Sunday = 6. Rata-die day 1
(0001-01-01) is a Monday. -/
def weekdayD (d : Date) : Nat := (toRataDie d + 6) % 7

/-- `datetime.max`'s date: 9999-12-31. -/
def maxDate : Date := { month := 12, day := 31, year := 9999 }

/-- The dates representable by `datetime` (what `strptime` can produce). -/
def validDate (d : Date) : Bool :=
  1 ≤ d.month && d.month ≤ 12 && 1 ≤ d.day &&
    d.day ≤ daysInMonth d.year d.month && 1 ≤ d.year && d.year ≤ 9999

/-- `current + timedelta(days=1)` on the date components (month/year rollover). -/
def nextDay (d : Date) : Date :=
  if d.day < daysInMonth d.year d.month then
    { month := d.month, day := d.day + 1, year := d.year }
  else if d.month < 12 then { month := d.month + 1, day := 1, year := d.year }
  else { month := 1, day := 1, year := d.year + 1 }

/-- `current <= end` on `datetime` values: chronological comparison. -/
def dateLe (a b : Date) : Bool := decide (toRataDie a ≤ toRataDie b)

/-- The Python exceptions `get_weekdays` can raise: `ValueError` from
`strptime` on unparseable input, `OverflowError` from advancing past
`datetime.max`. -/
inductive PyError where
  | valueError (msg : String)
  | overflowError
deriving DecidableEq

/-- Splitting a character list at `'-'` (keeping empty fields). -/
def splitDashAux : List Char → List Char → List String
  | [], acc => [String.mk acc.reverse]
  | c :: rest, acc =>
    if c = '-' then String.mk acc.reverse :: splitDashAux rest []
    else splitDashAux rest (c :: acc)

/-- The `-`-separated fields of the format `"%m-%d-%Y"`. -/
def splitDash (s : String) : List String := splitDashAux s.toList []

/-- Value of a non-empty all-digit character sequence, `none` otherwise. -/
def digitsVal? (cs : List Char) : Option Nat :=
  if cs ≠ [] ∧ cs.all Char.isDigit then
    some (cs.foldl (fun acc c => acc * 10 + (c.toNat - 48)) 0)
  else none

/-- One numeric `strptime` field: at most `maxLen` digits, value in
`[lo, hi]` (CPython's `%m` matches `1[0-2]|0[1-9]|[1-9]`, `%d` matches
`3[01]|[12]\d|0[1-9]|[1-9]`: one or two digits, bounded value). -/
def parseField? (s : String) (maxLen lo hi : Nat) : Option Nat :=
  if s.toList.length ≤ maxLen then
    match digitsVal? s.toList with
    | some v => if lo ≤ v ∧ v ≤ hi then some v else none
    | none => none
  else none

/-- `datetime.strptime(s, "%m-%d-%Y")`: three dash-separated fields; month in
1..12 (≤ 2 digits), day in 1..31 (≤ 2 digits), year exactly 4 digits; then the
`datetime` constructor validates the day against the month and requires
`MINYEAR ≤ year` (the `y ≤ 9999` bound is implied by the 4-digit field and is
recorded explicitly as `MAXYEAR`). `none` = `ValueError`. -/
def parseDate (s : String) : Option Date :=
  match splitDash s with
  | [ms, ds, ys] =>
    match parseField? ms 2 1 12, parseField? ds 2 1 31,
        (if ys.toList.length = 4 then digitsVal? ys.toList else none) with
    | some m, some dv, some y =>
      if 1 ≤ y ∧ y ≤ 9999 ∧ 1 ≤ dv ∧ dv ≤ daysInMonth y m then
        some { month := m, day := dv, year := y }
      else none
    | _, _, _ => none
  | _ => none

/-- Decimal digits of `n` (enough fuel for the ≤ 4-digit date fields). -/
def natDigits : Nat → Nat → List Char
  | 0, _ => []
  | fuel + 1, n =>
    if n < 10 then [Char.ofNat (48 + n)]
    else natDigits fuel (n / 10) ++ [Char.ofNat (48 + n % 10)]

/-- Decimal string of `n < 100000`. -/
def natToStr (n : Nat) : String := String.mk (natDigits 5 n)

/-- Two-digit zero-padded field (`%m`, `%d`). -/
def pad2 (n : Nat) : String := if n < 10 then "0" ++ natToStr n else natToStr n

/-- Four-digit zero-padded field (`%Y`; CPython delegates `%Y` to the platform,
which zero-pads the 4-digit years every parseable input here produces). -/
def pad4 (n : Nat) : String :=
  if n < 10 then "000" ++ natToStr n
  else if n < 100 then "00" ++ natToStr n
  else if n < 1000 then "0" ++ natToStr n
  else natToStr n

/-- `current.strftime("%m-%d-%Y")`. -/
def formatDate (d : Date) : String :=
  pad2 d.month ++ "-" ++ pad2 d.day ++ "-" ++ pad4 d.year

/-- Lines 74-78: `while current <= end: [weekday check / append]; current += 1`.
Fuel-indexed (the caller supplies enough fuel for the whole range); the
increment raises `OverflowError` when `current` is `datetime.max`'s date, which
discards the list built so far (the exception propagates out of
`get_weekdays`). -/
def weekdayLoop (e : Date) : Nat → Date → Except PyError (List String)
  | 0, _ => .ok []
  | fuel + 1, cur =>
    if dateLe cur e then
      let emitted := if weekdayD cur < 5 then [formatDate cur] else []
      if cur = maxDate then .error .overflowError
      else
        match weekdayLoop e fuel (nextDay cur) with
        | .ok rest => .ok (emitted ++ rest)
        | .error err => .error err
    else .ok []

/-- Lines 70-79: parse both endpoints (a failure is `strptime`'s `ValueError`),
then run the while-loop. The fuel `toRataDie de + 2 - toRataDie ds` covers
every iteration the loop can perform. -/
def get_weekdays (start_date end_date : String) : Except PyError (List String) :=
  match parseDate start_date with
  | none => .error (.valueError "time data does not match format")
  | some ds =>
    match parseDate end_date with
    | none => .error (.valueError "time data does not match format")
    | some de => weekdayLoop de (toRataDie de + 2 - toRataDie ds) ds

/-- The consecutive rata-die numbers from `a` to `b` inclusive (empty when
`b < a`). -/
def rangeList (a b : Nat) : List Nat := (List.range (b + 1 - a)).map (a + ·)

/-- Whether a `get_weekdays` outcome is a raised `ValueError`. -/
def isValueError : Except PyError (List String) → Bool
  | .error (.valueError _) => true
  | _ => false

theorem seriesRecords_length (symbol date atype metric : String) (s : SeriesData) :
    (seriesRecords symbol date atype metric s).length
      = min s.times.length s.values.length := by
  simp [seriesRecords]

theorem phaseRecords_of_none (symbol date atype : String) :
    phaseRecords symbol date atype none = [] := rfl

theorem phaseRecords_length (symbol date atype : String) (pd : Option PhaseData)
    (h : phaseAligned pd = true) :
    (phaseRecords symbol date atype pd).length = phaseCount pd := by
  cases pd with
  | none => rfl
  | some p =>
    simp only [phaseAligned, Bool.and_eq_true, seriesOk] at h
    simp only [phaseRecords, phaseCount, metricsOrder, List.flatMap_cons,
      List.flatMap_nil, List.append_nil, List.length_append, getMetric]
    obtain ⟨⟨h1, h2⟩, h3⟩ := h
    cases hi : p.imbalance <;> cases hp : p.paired <;> cases hq : p.price <;>
      simp_all [seriesRecords_length, seriesCount, Nat.beq_eq_true_eq] <;> omega

theorem mem_seriesRecords {r : AuctionRecord} {symbol date atype metric : String}
    {s : SeriesData} (h : r ∈ seriesRecords symbol date atype metric s) :
    r.auction_type = atype ∧ r.metric = metricName metric := by
  simp only [seriesRecords, List.mem_map] at h
  obtain ⟨tv, _, rfl⟩ := h
  exact ⟨rfl, rfl⟩

theorem filter_seriesRecords_self (symbol date atype metric : String)
    (s : SeriesData) :
    (seriesRecords symbol date atype metric s).filter
        (groupPred atype (metricName metric))
      = seriesRecords symbol date atype metric s := by
  apply List.filter_eq_self.mpr
  intro r hr
  obtain ⟨ha, hm⟩ := mem_seriesRecords hr
  simp [groupPred, ha, hm]

theorem filter_seriesRecords_of_ne {phase mname : String}
    (symbol date atype metric : String) (s : SeriesData)
    (h : atype ≠ phase ∨ metricName metric ≠ mname) :
    (seriesRecords symbol date atype metric s).filter (groupPred phase mname)
      = [] := by
  apply List.filter_eq_nil_iff.mpr
  intro r hr
  obtain ⟨ha, hm⟩ := mem_seriesRecords hr
  simp only [groupPred, ha, hm, Bool.and_eq_true, beq_iff_eq, not_and]
  rintro rfl rfl
  rcases h with h | h
  · exact h rfl
  · exact h rfl

theorem mem_metricChunk {r : AuctionRecord} {symbol date atype m : String}
    {p : PhaseData} (h : r ∈ metricChunk symbol date atype m p) :
    r.auction_type = atype ∧ r.metric = metricName m := by
  unfold metricChunk at h
  cases hg : getMetric p m with
  | none => rw [hg] at h; simp at h
  | some s => rw [hg] at h; exact mem_seriesRecords h

theorem metricChunk_of_some {m : String} {p : PhaseData} {s : SeriesData}
    (symbol date atype : String) (hs : getMetric p m = some s) :
    metricChunk symbol date atype m p = seriesRecords symbol date atype m s := by
  simp [metricChunk, hs]

theorem filter_metricChunk_of_ne {phase mname : String}
    (symbol date atype m : String) (p : PhaseData)
    (h : atype ≠ phase ∨ metricName m ≠ mname) :
    (metricChunk symbol date atype m p).filter (groupPred phase mname) = [] := by
  unfold metricChunk
  cases hg : getMetric p m with
  | none => rfl
  | some s => exact filter_seriesRecords_of_ne symbol date atype m s h

theorem phaseRecords_eq_chunks (symbol date atype : String) (p : PhaseData) :
    phaseRecords symbol date atype (some p)
      = metricChunk symbol date atype "imbalance" p ++
          (metricChunk symbol date atype "paired" p ++
            metricChunk symbol date atype "price" p) := by
  simp [phaseRecords, metricsOrder, metricChunk]

theorem mem_phaseRecords {r : AuctionRecord} {symbol date atype : String}
    {pd : Option PhaseData} (h : r ∈ phaseRecords symbol date atype pd) :
    r.auction_type = atype ∧
      (r.metric = "imbalance" ∨ r.metric = "paired_quantity" ∨
        r.metric = "clearing_price") := by
  cases pd with
  | none => simp [phaseRecords] at h
  | some p =>
    rw [phaseRecords_eq_chunks] at h
    simp only [List.mem_append] at h
    rcases h with h | h | h
    · obtain ⟨ha, hm⟩ := mem_metricChunk h
      exact ⟨ha, Or.inl (by simp [hm, metricName])⟩
    · obtain ⟨ha, hm⟩ := mem_metricChunk h
      exact ⟨ha, Or.inr (Or.inl (by simp [hm, metricName]))⟩
    · obtain ⟨ha, hm⟩ := mem_metricChunk h
      exact ⟨ha, Or.inr (Or.inr (by simp [hm, metricName]))⟩

theorem filter_phaseRecords_of_ne {phase : String} (symbol date atype : String)
    (pd : Option PhaseData) (mname : String) (h : atype ≠ phase) :
    (phaseRecords symbol date atype pd).filter (groupPred phase mname) = [] := by
  apply List.filter_eq_nil_iff.mpr
  intro r hr
  have ha := (mem_phaseRecords hr).1
  simp [groupPred, ha, h]

theorem normalize_filter_group (symbol date phase metric : String)
    (b : RawChartBundle) (s : SeriesData)
    (hp : phase = "opening" ∨ phase = "closing")
    (hm : metric = "imbalance" ∨ metric = "paired" ∨ metric = "price")
    (hs : bundleSeries b phase metric = some s) :
    (normalizeBundle symbol date b).filter (groupPred phase (metricName metric))
      = seriesRecords symbol date phase metric s := by
  rcases hp with rfl | rfl
  · cases hop : b.opening with
    | none => simp [bundleSeries, bundlePhase, hop] at hs
    | some p =>
      have hg : getMetric p metric = some s := by
        simpa [bundleSeries, bundlePhase, hop] using hs
      rw [normalizeBundle, hop, List.filter_append,
        filter_phaseRecords_of_ne symbol date "closing" b.closing _ (by decide),
        List.append_nil, phaseRecords_eq_chunks, List.filter_append,
        List.filter_append]
      rcases hm with rfl | rfl | rfl
      · rw [metricChunk_of_some symbol date "opening" hg, filter_seriesRecords_self,
          filter_metricChunk_of_ne symbol date "opening" "paired" p
            (Or.inr (by decide)),
          filter_metricChunk_of_ne symbol date "opening" "price" p
            (Or.inr (by decide))]
        simp
      · rw [metricChunk_of_some symbol date "opening" hg, filter_seriesRecords_self,
          filter_metricChunk_of_ne symbol date "opening" "imbalance" p
            (Or.inr (by decide)),
          filter_metricChunk_of_ne symbol date "opening" "price" p
            (Or.inr (by decide))]
        simp
      · rw [metricChunk_of_some symbol date "opening" hg, filter_seriesRecords_self,
          filter_metricChunk_of_ne symbol date "opening" "imbalance" p
            (Or.inr (by decide)),
          filter_metricChunk_of_ne symbol date "opening" "paired" p
            (Or.inr (by decide))]
        simp
  · cases hcl : b.closing with
    | none => simp [bundleSeries, bundlePhase, hcl] at hs
    | some p =>
      have hg : getMetric p metric = some s := by
        simpa [bundleSeries, bundlePhase, hcl] using hs
      rw [normalizeBundle, hcl, List.filter_append,
        filter_phaseRecords_of_ne symbol date "opening" b.opening _ (by decide),
        List.nil_append, phaseRecords_eq_chunks, List.filter_append,
        List.filter_append]
      rcases hm with rfl | rfl | rfl
      · rw [metricChunk_of_some symbol date "closing" hg, filter_seriesRecords_self,
          filter_metricChunk_of_ne symbol date "closing" "paired" p
            (Or.inr (by decide)),
          filter_metricChunk_of_ne symbol date "closing" "price" p
            (Or.inr (by decide))]
        simp
      · rw [metricChunk_of_some symbol date "closing" hg, filter_seriesRecords_self,
          filter_metricChunk_of_ne symbol date "closing" "imbalance" p
            (Or.inr (by decide)),
          filter_metricChunk_of_ne symbol date "closing" "price" p
            (Or.inr (by decide))]
        simp
      · rw [metricChunk_of_some symbol date "closing" hg, filter_seriesRecords_self,
          filter_metricChunk_of_ne symbol date "closing" "imbalance" p
            (Or.inr (by decide)),
          filter_metricChunk_of_ne symbol date "closing" "paired" p
            (Or.inr (by decide))]
        simp

theorem normalizeBundle_length_of_aligned (symbol date : String)
    (b : RawChartBundle) (hb : alignedBundle b = true) :
    (normalizeBundle symbol date b).length = bundleCount b := by
  rw [alignedBundle, Bool.and_eq_true] at hb
  rw [normalizeBundle, List.length_append,
    phaseRecords_length _ _ _ _ hb.1, phaseRecords_length _ _ _ _ hb.2,
    bundleCount]

/-- **C1**: for a request whose navigation succeeds and whose bundle satisfies
the alignment precondition, the normalizer emits exactly the sum of `len(times)`
over all present (phase, metric) combinations (`bundleCount`); a request whose
navigation fails contributes zero records to the accumulator (the `else` branch
of line 138 only logs); and a bundle with both phases absent yields no records. -/
theorem claim_C1_record_count (symbol date : String) (b : RawChartBundle)
    (env1 env2 : String → String → PairOutcome) (t1 d1 t2 d2 : String)
    (rest1 rest2 : List (String × String)) (acc1 acc2 : List AuctionRecord)
    (logs1 logs2 : List String) (page : Page)
    (hb : alignedBundle b = true)
    (h1 : env1 t1 d1 = .navFail)
    (h2 : env2 t2 d2 = .pageOk page)
    (hal : alignedBundle (extractRaw page) = true) :
    (normalizeBundle symbol date b).length = bundleCount b
    ∧ normalizeBundle symbol date { opening := none, closing := none } = []
    ∧ runPairs env1 ((t1, d1) :: rest1) acc1 logs1
        = runPairs env1 rest1 acc1 (logs1 ++ [navWarn t1 d1])
    ∧ runPairs env2 ((t2, d2) :: rest2) acc2 logs2
        = runPairs env2 rest2 (acc2 ++ pairRecords t2 d2 page) logs2
    ∧ (pairRecords t2 d2 page).length = bundleCount (extractRaw page) := by
  refine ⟨normalizeBundle_length_of_aligned symbol date b hb, rfl, ?_, ?_, ?_⟩
  · simp [runPairs, h1]
  · simp [runPairs, h2]
  · exact normalizeBundle_length_of_aligned t2 d2 (extractRaw page) hal

/-- Witness for C1 at concrete inputs: the spec's §8 scenario bundle (two
points at `opening.imbalance`, everything else absent) yields exactly two
records, and concrete nav-failure / nav-success loop steps. -/
theorem claim_C1_record_count_witness :
    (normalizeBundle "A" "12-02-2024" sampleBundle).length = bundleCount sampleBundle
    ∧ normalizeBundle "A" "12-02-2024" { opening := none, closing := none } = []
    ∧ runPairs envNavFail [("A", "12-02-2024")] [] []
        = runPairs envNavFail [] [] ([] ++ [navWarn "A" "12-02-2024"])
    ∧ runPairs envPageOk [("MMM", "12-03-2024")] [] []
        = runPairs envPageOk [] ([] ++ pairRecords "MMM" "12-03-2024" samplePage) []
    ∧ (pairRecords "MMM" "12-03-2024" samplePage).length
        = bundleCount (extractRaw samplePage) :=
  claim_C1_record_count "A" "12-02-2024" sampleBundle envNavFail envPageOk
    "A" "12-02-2024" "MMM" "12-03-2024" [] [] [] [] [] [] samplePage
    (by decide) rfl rfl (by decide)

/-- **C7**: every emitted record's `metric` is the remapped external name —
one of `imbalance`, `paired_quantity`, `clearing_price` — and never the internal
slot names `paired` or `price`; the remapping of line 127 sends `paired` to
`paired_quantity`, `price` to `clearing_price` and leaves `imbalance` alone. -/
theorem claim_C7_metric_remap (symbol date : String) (b : RawChartBundle)
    (r : AuctionRecord) (h : r ∈ normalizeBundle symbol date b) :
    (r.metric = "imbalance" ∨ r.metric = "paired_quantity" ∨
      r.metric = "clearing_price")
    ∧ r.metric ≠ "paired" ∧ r.metric ≠ "price"
    ∧ metricName "paired" = "paired_quantity"
    ∧ metricName "price" = "clearing_price"
    ∧ metricName "imbalance" = "imbalance" := by
  have hmem : r.metric = "imbalance" ∨ r.metric = "paired_quantity" ∨
      r.metric = "clearing_price" := by
    rw [normalizeBundle] at h
    rcases List.mem_append.mp h with h | h
    · exact (mem_phaseRecords h).2
    · exact (mem_phaseRecords h).2
  refine ⟨hmem, ?_, ?_, by decide, by decide, by decide⟩
  · rcases hmem with h1 | h1 | h1 <;> simp [h1]
  · rcases hmem with h1 | h1 | h1 <;> simp [h1]

/-- Witness for C7: the first record of the §8 scenario bundle. -/
theorem claim_C7_metric_remap_witness :
    (sampleRecord.metric = "imbalance" ∨ sampleRecord.metric = "paired_quantity"
      ∨ sampleRecord.metric = "clearing_price")
    ∧ sampleRecord.metric ≠ "paired" ∧ sampleRecord.metric ≠ "price"
    ∧ metricName "paired" = "paired_quantity"
    ∧ metricName "price" = "clearing_price"
    ∧ metricName "imbalance" = "imbalance" :=
  claim_C7_metric_remap "A" "12-02-2024" sampleBundle sampleRecord (by decide)

/-- **C8**: within one present (phase, metric) group, the normalizer's output
preserves source index order: the records of that group, in output order, are
exactly `seriesRecords`, i.e. the map over `times.zip values` in index order
(the record built from index `i` precedes the one built from index `i + 1`). -/
theorem claim_C8_group_order (symbol date phase metric : String)
    (b : RawChartBundle) (s : SeriesData)
    (hp : phase = "opening" ∨ phase = "closing")
    (hm : metric = "imbalance" ∨ metric = "paired" ∨ metric = "price")
    (hs : bundleSeries b phase metric = some s) :
    (normalizeBundle symbol date b).filter (groupPred phase (metricName metric))
      = seriesRecords symbol date phase metric s :=
  normalize_filter_group symbol date phase metric b s hp hm hs

/-- Witness for C8 at the §8 scenario bundle. -/
theorem claim_C8_group_order_witness :
    (normalizeBundle "A" "12-02-2024" sampleBundle).filter
        (groupPred "opening" (metricName "imbalance"))
      = seriesRecords "A" "12-02-2024" "opening" "imbalance" sampleSeries :=
  claim_C8_group_order "A" "12-02-2024" "opening" "imbalance" sampleBundle
    sampleSeries (Or.inl rfl) (Or.inl rfl) (by decide)

/-- **C9**: a present (phase, metric) series whose `times` and `values` have
different lengths does not make the normalizer fail (it is total); the group
receives exactly `min` of the two lengths records — `zip` silently drops the
unmatched tail of the longer sequence. -/
theorem claim_C9_ragged_zip (symbol date phase metric : String)
    (b : RawChartBundle) (s : SeriesData)
    (hp : phase = "opening" ∨ phase = "closing")
    (hm : metric = "imbalance" ∨ metric = "paired" ∨ metric = "price")
    (hs : bundleSeries b phase metric = some s)
    (hne : s.times.length ≠ s.values.length) :
    ((normalizeBundle symbol date b).filter
        (groupPred phase (metricName metric))).length
      = min s.times.length s.values.length := by
  rw [normalize_filter_group symbol date phase metric b s hp hm hs]
  exact seriesRecords_length symbol date phase metric s

/-- Witness for C9: three times against one value at `closing.paired` yield one
record. -/
theorem claim_C9_ragged_zip_witness :
    ((normalizeBundle "A" "12-02-2024" raggedBundle).filter
        (groupPred "closing" (metricName "paired"))).length
      = min raggedSeries.times.length raggedSeries.values.length :=
  claim_C9_ragged_zip "A" "12-02-2024" "closing" "paired" raggedBundle
    raggedSeries (Or.inr rfl) (Or.inr (Or.inl rfl)) (by decide) (by decide)

/-- **C5**: `navigate` is total (the model of "never raises": it is a function
into `Bool × List String`, not into an exception monad — the `except Exception`
of line 58 catches whatever the body raises): for every driver behaviour and
wait-condition setting it either returns `True` with no error log, or `False`
having logged a navigation error; and it returns `True` exactly when every step
of the body (`driver.get`, the optional `wait.until`, `time.sleep`) succeeds. -/
theorem claim_C5_navigate_never_raises (env : NavEnv) (hasWait : Bool) :
    (((navigate env hasWait).1 = true ∧ (navigate env hasWait).2 = []) ∨
      ((navigate env hasWait).1 = false ∧ (navigate env hasWait).2 ≠ []))
    ∧ ((navigate env hasWait).1 = true ↔
        (env.getErr = none ∧ (hasWait = true → env.waitErr = none) ∧
          env.sleepErr = none)) := by
  unfold navigate navigateBody
  cases hg : env.getErr <;> cases hw : env.waitErr <;> cases hs : env.sleepErr <;>
    cases hasWait <;> simp_all

/-- **C10**: `_setup_webdriver` reaches the driver construction exactly when the
lowercased browser argument equals `"chrome"`; any other value raises the
`ValueError` of line 36 before any webdriver is created (`SetupResult.valueError`
is produced before the model's driver-construction stage by construction). -/
theorem claim_C10_browser_check (browser : String) :
    (setup_webdriver browser = .driverReady ↔ pyLower browser = "chrome")
    ∧ setup_webdriver "chrome" = .driverReady
    ∧ setup_webdriver "Chrome" = .driverReady
    ∧ setup_webdriver "CHROME" = .driverReady
    ∧ setup_webdriver "chRoMe" = .driverReady
    ∧ setup_webdriver "firefox" = .valueError "Currently only Chrome is supported"
    ∧ setup_webdriver "safari" = .valueError "Currently only Chrome is supported" := by
  refine ⟨?_, by decide, by decide, by decide, by decide, by decide, by decide⟩
  unfold setup_webdriver
  by_cases h : pyLower browser = "chrome" <;> simp [h]

theorem extractLoop_opening (charts : List (Option SeriesData))
    (hs : List Heading) :
    ∀ (op cl : Option PhaseData) (idx : Nat),
      (extractLoop charts hs op cl idx).opening
        = match lastIdxWhere classifyOpening hs with
          | some k => some (tripletAt charts (idx + 3 * k))
          | none => op := by
  induction hs with
  | nil => intro op cl idx; rfl
  | cons h rest ih =>
    intro op cl idx
    simp only [extractLoop]
    by_cases hc : classifyOpening h = true
    · rw [if_pos hc, ih _ cl (idx + 3)]
      cases hrest : lastIdxWhere classifyOpening rest with
      | some k =>
        have h3 : idx + 3 + 3 * k = idx + 3 * (k + 1) := by omega
        simp [lastIdxWhere, hrest, hc, h3]
      | none => simp [lastIdxWhere, hrest, hc]
    · rw [if_neg hc, ih op _ (idx + 3)]
      cases hrest : lastIdxWhere classifyOpening rest with
      | some k =>
        have h3 : idx + 3 + 3 * k = idx + 3 * (k + 1) := by omega
        simp [lastIdxWhere, hrest, hc, h3]
      | none => simp [lastIdxWhere, hrest, hc]

theorem extractLoop_closing (charts : List (Option SeriesData))
    (hs : List Heading) :
    ∀ (op cl : Option PhaseData) (idx : Nat),
      (extractLoop charts hs op cl idx).closing
        = match lastIdxWhere (fun hh => !classifyOpening hh) hs with
          | some k => some (tripletAt charts (idx + 3 * k))
          | none => cl := by
  induction hs with
  | nil => intro op cl idx; rfl
  | cons h rest ih =>
    intro op cl idx
    simp only [extractLoop]
    by_cases hc : classifyOpening h = true
    · rw [if_pos hc, ih (some (tripletAt charts idx)) _ (idx + 3)]
      cases hrest : lastIdxWhere (fun hh => !classifyOpening hh) rest with
      | some k =>
        have h3 : idx + 3 + 3 * k = idx + 3 * (k + 1) := by omega
        simp [lastIdxWhere, hrest, hc, h3]
      | none => simp [lastIdxWhere, hrest, hc]
    · rw [if_neg hc, ih op _ (idx + 3)]
      cases hrest : lastIdxWhere (fun hh => !classifyOpening hh) rest with
      | some k =>
        have h3 : idx + 3 + 3 * k = idx + 3 * (k + 1) := by omega
        simp [lastIdxWhere, hrest, hc, h3]
      | none => simp [lastIdxWhere, hrest, hc]

theorem bundle_ext {a b : RawChartBundle} (h1 : a.opening = b.opening)
    (h2 : a.closing = b.closing) : a = b := by
  cases a; cases b; simp_all

/-- **C6**: the extractor's classification is case-sensitive containment of
`"Opening"` (everything else is closing), and chart instances are consumed in
document order in fixed groups of three per heading, positionally as
`imbalance`, `paired`, `price`: `extractRaw` coincides with `specExtract`, the
direct rendering of the spec's words (heading number `k` — 0-based, document
order — takes charts `3k`, `3k+1`, `3k+2`; the last heading of a class wins). -/
theorem claim_C6_extractor (page : Page) (h : Heading) :
    extractRaw page = specExtract page
    ∧ classifyOpening h = strIncludes h.textContent "Opening"
    ∧ classifyOpening { textContent := "NYSE Opening Auction" } = true
    ∧ classifyOpening { textContent := "NYSE OPENING AUCTION" } = false
    ∧ classifyOpening { textContent := "nyse opening auction" } = false
    ∧ classifyOpening { textContent := "NYSE Closing Auction" } = false := by
  refine ⟨?_, rfl, by decide, by decide, by decide, by decide⟩
  apply bundle_ext
  · rw [extractRaw, extractLoop_opening]
    unfold specExtract
    cases hres : lastIdxWhere classifyOpening page.headers <;> simp [hres]
  · rw [extractRaw, extractLoop_closing]
    unfold specExtract
    cases hres : lastIdxWhere (fun hh => !classifyOpening hh) page.headers <;>
      simp [hres]

/-- Counterexample to **C2** as stated. The claim asserts (a) an exception
escaping Extractor/Normalizer for one pair is caught, contributes zero records,
and iteration continues with the remaining pairs, and (b) exceptions during the
final export propagate and terminate the run. In the code one `try` (line 85)
wraps the whole double loop *and* the export, so: with pairs
`("A","12-02-2024")` (raises) then `("A","12-03-2024")` (would contribute two
records), the run ends with an empty accumulator and no export at all —
iteration did not continue; and with a failing export the exception is caught
by `except Exception` (line 149) and logged, not propagated. -/
theorem claim_C2_counterexample :
    (nyse_auction_scraper_example ["A"] ["12-02-2024", "12-03-2024"] cexEnv
        none).all_data = []
    ∧ (nyse_auction_scraper_example ["A"] ["12-02-2024", "12-03-2024"] cexEnv
        none).exported = none
    ∧ pairRecords "A" "12-03-2024" samplePage ≠ []
    ∧ (nyse_auction_scraper_example ["A"] ["12-03-2024"] cexEnv
        (some "disk full")).raised = false
    ∧ (nyse_auction_scraper_example ["A"] ["12-03-2024"] cexEnv
        (some "disk full")).exported = none := by
  exact ⟨rfl, rfl, by decide, rfl, rfl⟩

/-- **C2 (amended)**: a `navigate` returning `False` is logged and its pair
contributes zero records, with iteration continuing; but an exception escaping
the extraction/normalization of a pair is caught only by the single run-level
handler: it aborts the remaining iteration and the export (the records gathered
so far are discarded, `exported = none`), and is logged as `"Scraping failed"`;
an exception during the final export is likewise caught and logged, never
propagated; in every case the browser is released (`closed`) exactly once and
no exception escapes the run. -/
theorem claim_C2_amended (tickers dates : List String)
    (env : String → String → PairOutcome) (exportErr : Option String)
    (t1 d1 m t2 d2 : String) (rest1 rest2 : List (String × String))
    (acc1 acc2 : List AuctionRecord) (logs1 logs2 : List String)
    (a : List AuctionRecord) (l : List String) (mm : String)
    (h1 : env t1 d1 = .raiseErr m) (h2 : env t2 d2 = .navFail)
    (h3 : runPairs env (crossPairs tickers dates) [] [] = (a, l, some mm)) :
    (nyse_auction_scraper_example tickers dates env exportErr).closed = true
    ∧ (nyse_auction_scraper_example tickers dates env exportErr).raised = false
    ∧ runPairs env ((t1, d1) :: rest1) acc1 logs1 = (acc1, logs1, some m)
    ∧ runPairs env ((t2, d2) :: rest2) acc2 logs2
        = runPairs env rest2 acc2 (logs2 ++ [navWarn t2 d2])
    ∧ (nyse_auction_scraper_example tickers dates env exportErr).exported = none
    ∧ (nyse_auction_scraper_example tickers dates env exportErr).all_data = a
    ∧ (nyse_auction_scraper_example tickers dates env exportErr).logs
        = l ++ ["Scraping failed: " ++ mm] := by
  refine ⟨?_, ?_, by simp [runPairs, h1], by simp [runPairs, h2], ?_, ?_, ?_⟩ <;>
    simp [nyse_auction_scraper_example, h3]

/-- Witness for the amended C2 at a concrete run: one raising pair between two
good ones. -/
theorem claim_C2_amended_witness :
    (nyse_auction_scraper_example ["A"] ["12-01-2024", "12-02-2024", "12-03-2024"]
        cexEnv none).closed = true
    ∧ (nyse_auction_scraper_example ["A"] ["12-01-2024", "12-02-2024", "12-03-2024"]
        cexEnv none).raised = false
    ∧ runPairs cexEnv [("A", "12-02-2024")] (pairRecords "A" "12-01-2024" samplePage)
        [] = (pairRecords "A" "12-01-2024" samplePage, [], some "boom")
    ∧ runPairs cexEnv [("MMM", "12-05-2024")] [] []
        = runPairs cexEnv [] [] ([] ++ [navWarn "MMM" "12-05-2024"])
    ∧ (nyse_auction_scraper_example ["A"] ["12-01-2024", "12-02-2024", "12-03-2024"]
        cexEnv none).exported = none
    ∧ (nyse_auction_scraper_example ["A"] ["12-01-2024", "12-02-2024", "12-03-2024"]
        cexEnv none).all_data = pairRecords "A" "12-01-2024" samplePage
    ∧ (nyse_auction_scraper_example ["A"] ["12-01-2024", "12-02-2024", "12-03-2024"]
        cexEnv none).logs
        = [] ++ ["Scraping failed: " ++ "boom"] :=
  claim_C2_amended ["A"] ["12-01-2024", "12-02-2024", "12-03-2024"] cexEnv none
    "A" "12-02-2024" "boom" "MMM" "12-05-2024" [] []
    (pairRecords "A" "12-01-2024" samplePage) [] [] []
    (pairRecords "A" "12-01-2024" samplePage) [] "boom"
    rfl rfl (by decide)

theorem one_le_daysInMonth (y m : Nat) : 1 ≤ daysInMonth y m := by
  unfold daysInMonth
  split_ifs <;> omega

theorem daysInMonth_le_31 (y m : Nat) : daysInMonth y m ≤ 31 := by
  unfold daysInMonth
  split_ifs <;> omega

theorem daysBefore_succ (y m : Nat) (h1 : 1 ≤ m) (h2 : m ≤ 11) :
    daysBeforeMonth y (m + 1) = daysBeforeMonth y m + daysInMonth y m := by
  interval_cases m <;>
    cases hl : isLeapYear y <;>
      simp [daysBeforeMonth, monthOffset, daysInMonth, hl]

theorem leapCount_succ (y : Nat) (hy : 1 ≤ y) :
    leapCount y = leapCount (y - 1) + (if isLeapYear y = true then 1 else 0) := by
  unfold leapCount isLeapYear
  by_cases h4 : y % 4 = 0 <;> by_cases h100 : y % 100 = 0 <;>
    by_cases h400 : y % 400 = 0 <;>
      simp [h4, h100, h400] <;> omega

theorem toRataDie_nextDay {d : Date} (hv : validDate d = true) :
    toRataDie (nextDay d) = toRataDie d + 1 := by
  rcases d with ⟨m, dy, y⟩
  simp only [validDate, Bool.and_eq_true, decide_eq_true_eq] at hv
  obtain ⟨⟨⟨⟨⟨hm1, hm2⟩, hd1⟩, hd2⟩, hy1⟩, hy2⟩ := hv
  unfold nextDay
  simp only at *
  split_ifs with hlt h12
  · simp only [toRataDie]
    omega
  · have hdy : dy = daysInMonth y m := by omega
    simp only [toRataDie]
    rw [daysBefore_succ y m hm1 (by omega)]
    omega
  · have hm : m = 12 := by omega
    have hdy : dy = 31 := by
      subst hm
      simp [daysInMonth] at hlt hd2
      omega
    subst hm
    subst hdy
    have hlc := leapCount_succ y hy1
    have hdb1 : daysBeforeMonth (y + 1) 1 = 0 := by
      simp [daysBeforeMonth, monthOffset]
    have hdb12 : daysBeforeMonth y 12
        = 334 + (if isLeapYear y = true then 1 else 0) := by
      simp [daysBeforeMonth, monthOffset]
    simp only [toRataDie, Nat.add_sub_cancel]
    rw [hdb1, hdb12, hlc]
    generalize (if isLeapYear y = true then 1 else 0) = L at *
    omega

theorem validDate_nextDay {d : Date} (hv : validDate d = true)
    (hne : d ≠ maxDate) : validDate (nextDay d) = true := by
  rcases d with ⟨m, dy, y⟩
  simp only [validDate, Bool.and_eq_true, decide_eq_true_eq] at hv
  obtain ⟨⟨⟨⟨⟨hm1, hm2⟩, hd1⟩, hd2⟩, hy1⟩, hy2⟩ := hv
  simp only [maxDate, ne_eq, Date.mk.injEq, not_and] at hne
  unfold nextDay
  simp only at *
  split_ifs with hlt h12
  · simp only [validDate, Bool.and_eq_true, decide_eq_true_eq]
    refine ⟨⟨⟨⟨⟨hm1, hm2⟩, by omega⟩, by omega⟩, hy1⟩, hy2⟩
  · simp only [validDate, Bool.and_eq_true, decide_eq_true_eq]
    have := one_le_daysInMonth y (m + 1)
    refine ⟨⟨⟨⟨⟨by omega, by omega⟩, by omega⟩, this⟩, hy1⟩, hy2⟩
  · have hm : m = 12 := by omega
    have hdy : dy = 31 := by
      subst hm
      simp [daysInMonth] at hlt hd2
      omega
    have hy : y ≠ 9999 := fun h => hne hm hdy h
    simp only [validDate, Bool.and_eq_true, decide_eq_true_eq]
    refine ⟨⟨⟨⟨⟨by omega, by omega⟩, by omega⟩, ?_⟩, by omega⟩, by omega⟩
    have := one_le_daysInMonth (y + 1) 1
    omega

theorem monthOffset_of_ge {m : Nat} (h : 12 ≤ m) : monthOffset m = 334 := by
  have hb : ¬ m ≤ 1 := by omega
  have h2 : m ≠ 2 := by omega
  have h3 : m ≠ 3 := by omega
  have h4 : m ≠ 4 := by omega
  have h5 : m ≠ 5 := by omega
  have h6 : m ≠ 6 := by omega
  have h7 : m ≠ 7 := by omega
  have h8 : m ≠ 8 := by omega
  have h9 : m ≠ 9 := by omega
  have h10 : m ≠ 10 := by omega
  have h11 : m ≠ 11 := by omega
  simp [monthOffset, hb, h2, h3, h4, h5, h6, h7, h8, h9, h10, h11]

theorem monthOffset_le (m : Nat) : monthOffset m ≤ 334 := by
  rcases Nat.lt_or_ge m 12 with h | h
  · interval_cases m <;> simp [monthOffset]
  · rw [monthOffset_of_ge h]

theorem monthOffset_le_11 (m : Nat) (h : m ≤ 11) : monthOffset m ≤ 304 := by
  interval_cases m <;> simp [monthOffset]

theorem toRataDie_lt_max {d : Date} (hv : validDate d = true)
    (hne : d ≠ maxDate) : toRataDie d < toRataDie maxDate := by
  rcases d with ⟨m, dy, y⟩
  simp only [validDate, Bool.and_eq_true, decide_eq_true_eq] at hv
  obtain ⟨⟨⟨⟨⟨hm1, hm2⟩, hd1⟩, hd2⟩, hy1⟩, hy2⟩ := hv
  simp only [maxDate, ne_eq, Date.mk.injEq, not_and] at hne
  have hmax : toRataDie maxDate = 3652059 := by decide
  rw [hmax]
  have hdim : daysInMonth y m ≤ 31 := daysInMonth_le_31 y m
  have hdb : daysBeforeMonth y m ≤ 335 := by
    have := monthOffset_le m
    unfold daysBeforeMonth
    split_ifs <;> omega
  rcases Nat.lt_or_ge y 9999 with hy | hy
  · simp only [toRataDie, leapCount]
    omega
  · have hy9 : y = 9999 := by omega
    subst hy9
    have hlc : leapCount (9999 - 1) = 2424 := by decide
    by_cases hm12 : m = 12
    · subst hm12
      have hdy31 : dy ≠ 31 := fun h => hne rfl h rfl
      have hdim12 : daysInMonth 9999 12 = 31 := by decide
      have hdb12 : daysBeforeMonth 9999 12 = 334 := by decide
      rw [hdim12] at hd2
      simp only [toRataDie]
      rw [hdb12, hlc]
      omega
    · have hmo : monthOffset m ≤ 304 := monthOffset_le_11 m (by omega)
      have hdb2 : daysBeforeMonth 9999 m ≤ 304 := by
        have hl9 : isLeapYear 9999 = false := by decide
        unfold daysBeforeMonth
        rw [hl9]
        simp
        omega
      simp only [toRataDie]
      rw [hlc]
      omega

theorem parseField?_le {s : String} {maxLen lo hi v : Nat}
    (h : parseField? s maxLen lo hi = some v) : lo ≤ v ∧ v ≤ hi := by
  unfold parseField? at h
  split at h
  · split at h
    · split at h
      · injection h with h
        subst h
        assumption
      · exact absurd h (by simp)
    · exact absurd h (by simp)
  · exact absurd h (by simp)

theorem parseDate_valid {s : String} {d : Date} (h : parseDate s = some d) :
    validDate d = true := by
  unfold parseDate at h
  split at h
  case h_2 => exact absurd h (by simp)
  case h_1 ms ds ys =>
    split at h
    case h_2 => exact absurd h (by simp)
    case h_1 m dv y hm hd hy =>
      split at h
      case isFalse => exact absurd h (by simp)
      case isTrue hcond =>
        injection h with h
        subst h
        obtain ⟨hm1, hm2⟩ := parseField?_le hm
        obtain ⟨hd1, hd2⟩ := parseField?_le hd
        simp only [validDate, Bool.and_eq_true, decide_eq_true_eq]
        exact ⟨⟨⟨⟨⟨hm1, hm2⟩, hcond.2.2.1⟩, hcond.2.2.2⟩, hcond.1⟩, hcond.2.1⟩

theorem rangeList_nil {a b : Nat} (h : b < a) : rangeList a b = [] := by
  unfold rangeList
  have h0 : b + 1 - a = 0 := by omega
  rw [h0]
  rfl

theorem rangeList_cons {a b : Nat} (h : a ≤ b) :
    rangeList a b = a :: rangeList (a + 1) b := by
  unfold rangeList
  have h1 : b + 1 - a = (b + 1 - (a + 1)) + 1 := by omega
  rw [h1, List.range_succ_eq_map, List.map_cons, List.map_map]
  congr 1
  exact List.map_congr_left fun x _ => by simp [Function.comp]; omega

theorem weekdayLoop_of_gt {e cur : Date} (h : toRataDie e < toRataDie cur) :
    ∀ fuel, weekdayLoop e fuel cur = .ok []
  | 0 => rfl
  | fuel + 1 => by
    rw [weekdayLoop, if_neg]
    simp only [dateLe, decide_eq_true_eq]
    omega

theorem weekdayLoop_no_valueError (e : Date) :
    ∀ fuel cur, isValueError (weekdayLoop e fuel cur) = false
  | 0, cur => rfl
  | fuel + 1, cur => by
    rw [weekdayLoop]
    by_cases hle : dateLe cur e = true
    · rw [if_pos hle]
      by_cases hm : cur = maxDate
      · rw [if_pos hm]
        rfl
      · rw [if_neg hm]
        have hrec := weekdayLoop_no_valueError e fuel (nextDay cur)
        cases hw : weekdayLoop e fuel (nextDay cur) with
        | ok l => simp [isValueError]
        | error err =>
          rw [hw] at hrec
          cases err with
          | valueError m => simp [isValueError] at hrec
          | overflowError => simp [isValueError]
    · rw [if_neg hle]
      rfl

theorem weekdayLoop_spec (e : Date) (hve : validDate e = true)
    (hemax : e ≠ maxDate) :
    ∀ (fuel : Nat) (cur : Date), validDate cur = true →
      toRataDie e + 2 ≤ fuel + toRataDie cur →
      ∃ l : List Date,
        weekdayLoop e fuel cur
          = .ok ((l.filter (fun d => weekdayD d < 5)).map formatDate)
        ∧ (∀ d ∈ l, validDate d = true)
        ∧ l.map toRataDie = rangeList (toRataDie cur) (toRataDie e) := by
  intro fuel
  induction fuel with
  | zero =>
    intro cur _ hfuel
    exact ⟨[], rfl, by simp, (rangeList_nil (by omega)).symm⟩
  | succ fuel ih =>
    intro cur hvc hfuel
    rw [weekdayLoop]
    by_cases hle : dateLe cur e = true
    · rw [if_pos hle]
      have hrle : toRataDie cur ≤ toRataDie e := by
        simpa [dateLe] using hle
      have hcurne : cur ≠ maxDate := by
        intro hcm
        have hlt := toRataDie_lt_max hve hemax
        rw [hcm] at hrle
        omega
      rw [if_neg hcurne]
      obtain ⟨l, hl1, hl2, hl3⟩ := ih (nextDay cur)
        (validDate_nextDay hvc hcurne)
        (by rw [toRataDie_nextDay hvc]; omega)
      refine ⟨cur :: l, ?_, ?_, ?_⟩
      · rw [hl1]
        by_cases hwd : weekdayD cur < 5 <;>
          simp [hwd, List.filter_cons]
      · intro d hd
        rcases List.mem_cons.mp hd with rfl | hd
        · exact hvc
        · exact hl2 d hd
      · rw [List.map_cons, hl3, toRataDie_nextDay hvc]
        exact (rangeList_cons hrle).symm
    · rw [if_neg hle]
      have hgt : toRataDie e < toRataDie cur := by
        simp only [dateLe, decide_eq_true_eq] at hle
        omega
      exact ⟨[], rfl, by simp, (rangeList_nil hgt).symm⟩

/-- Counterexample to **C3** as stated. The claim asserts `get_weekdays` fails
(with the spec's `InvalidRangeError`) exactly when `start` is not parseable or
`end < start`. In the code an inverted but parseable range raises nothing: the
`while current <= end` guard is immediately false and the function returns
`[]`. Moreover an unparseable `end` (with a parseable `start`) also raises,
which the "exactly" excludes. -/
theorem claim_C3_counterexample :
    get_weekdays "12-05-2024" "12-01-2024" = .ok []
    ∧ get_weekdays "12-01-2024" "not-a-date"
        = .error (.valueError "time data does not match format") := ⟨rfl, rfl⟩

/-- **C3 (amended)**: `get_weekdays` raises `ValueError` (from `strptime`)
exactly when `start` or `end` is unparseable — an inverted parseable range is
not an error and yields `[]`; when both endpoints parse, no `ValueError` is
possible (the only other failure is the `OverflowError`
raised at `end = 12-31-9999`). The failure happens inside
`get_weekdays`, which `main` calls before constructing the scraper, hence
before any navigation. -/
theorem claim_C3_range_errors (s e s2 e2 s3 e3 : String) (ds de ds3 de3 : Date)
    (h1 : parseDate s = some ds) (h2 : parseDate e = some de)
    (hlt : toRataDie de < toRataDie ds)
    (hbad : parseDate s2 = none ∨ parseDate e2 = none)
    (h31 : parseDate s3 = some ds3) (h32 : parseDate e3 = some de3) :
    get_weekdays s e = .ok []
    ∧ isValueError (get_weekdays s2 e2) = true
    ∧ isValueError (get_weekdays s3 e3) = false := by
  refine ⟨?_, ?_, ?_⟩
  · unfold get_weekdays
    rw [h1, h2]
    exact weekdayLoop_of_gt hlt _
  · unfold get_weekdays
    rcases hbad with hb | hb
    · rw [hb]
      rfl
    · cases hp : parseDate s2 with
      | none => simp [isValueError]
      | some d => simp [hb, isValueError]
  · unfold get_weekdays
    rw [h31, h32]
    exact weekdayLoop_no_valueError de3 _ ds3

/-- Witness for the amended C3: an inverted range returns `.ok []`, a
malformed start raises `ValueError`, a well-formed range raises none. -/
theorem claim_C3_range_errors_witness :
    get_weekdays "12-05-2024" "12-01-2024" = .ok []
    ∧ isValueError (get_weekdays "12-40-2024" "12-01-2024") = true
    ∧ isValueError (get_weekdays "12-02-2024" "12-06-2024") = false :=
  claim_C3_range_errors "12-05-2024" "12-01-2024" "12-40-2024" "12-01-2024"
    "12-02-2024" "12-06-2024"
    ⟨12, 5, 2024⟩ ⟨12, 1, 2024⟩ ⟨12, 2, 2024⟩ ⟨12, 6, 2024⟩
    rfl rfl (by decide) (Or.inl rfl) rfl rfl

/-- Counterexample to **C4** as stated: `"12-31-9999"` parses (a Friday, so a
qualifying weekday) and `start = end`, but instead of returning
`["12-31-9999"]` the code raises `OverflowError` — after appending, the loop
body advances `current` past `datetime.max`. -/
theorem claim_C4_counterexample :
    get_weekdays "12-31-9999" "12-31-9999" = .error .overflowError
    ∧ parseDate "12-31-9999" = some maxDate
    ∧ weekdayD maxDate < 5 := ⟨rfl, rfl, by decide⟩

/-- **C4 (amended)**: for every parseable pair with `start ≤ end` and
`end ≠ 9999-12-31` (the `OverflowError` edge),
`get_weekdays` returns, formatted as `MM-DD-YYYY`, exactly the weekday
(Mon..Fri, `weekdayD < 5`) members of a list of valid dates whose rata-die
numbers are precisely the consecutive range from `start` to `end` inclusive —
ascending chronological order with no qualifying weekday omitted; and the
spec's two scenarios hold: a single Monday yields itself, a Sat/Sun range
yields `[]`. -/
theorem claim_C4_weekday_expansion (s e : String) (ds de : Date)
    (h1 : parseDate s = some ds) (h2 : parseDate e = some de)
    (hle : toRataDie ds ≤ toRataDie de) (hmax : de ≠ maxDate) :
    (∃ l : List Date,
      get_weekdays s e
        = .ok ((l.filter (fun d => weekdayD d < 5)).map formatDate)
      ∧ (∀ d ∈ l, validDate d = true)
      ∧ l.map toRataDie = rangeList (toRataDie ds) (toRataDie de))
    ∧ get_weekdays "12-02-2024" "12-02-2024" = .ok ["12-02-2024"]
    ∧ get_weekdays "12-07-2024" "12-08-2024" = .ok [] := by
  refine ⟨?_, rfl, rfl⟩
  unfold get_weekdays
  rw [h1, h2]
  exact weekdayLoop_spec de (parseDate_valid h2) hmax _ ds (parseDate_valid h1)
    (by omega)

/-- Witness for the amended C4 on the concrete week 12-02-2024 .. 12-06-2024. -/
theorem claim_C4_weekday_expansion_witness :
    (∃ l : List Date,
      get_weekdays "12-02-2024" "12-06-2024"
        = .ok ((l.filter (fun d => weekdayD d < 5)).map formatDate)
      ∧ (∀ d ∈ l, validDate d = true)
      ∧ l.map toRataDie
          = rangeList (toRataDie ⟨12, 2, 2024⟩) (toRataDie ⟨12, 6, 2024⟩))
    ∧ get_weekdays "12-02-2024" "12-02-2024" = .ok ["12-02-2024"]
    ∧ get_weekdays "12-07-2024" "12-08-2024" = .ok [] :=
  claim_C4_weekday_expansion "12-02-2024" "12-06-2024"
    ⟨12, 2, 2024⟩ ⟨12, 6, 2024⟩ rfl rfl (by decide) (by decide)
